import Mathlib

/-!
Shallow embedding of `src/builtins/impls/http.rs` from rust-opa-wasm: the
`http.send` builtin. Pure Rust control flow is translated directly; external
effects are made explicit:

  * network I/O: `send` takes the outcome of the single dispatch as an
    explicit `Except String WireResponse` argument (the wire response the
    network would deliver, or a network error);
  * external parsers (`serde_json::from_str`, `serde_yaml::from_str`):
    passed as function arguments `jp yp : String → Except String String`
    (parsed values are modelled opaquely by strings);
  * the cache store allocated by `MokaManager::default()` inside
    `build_client`: `MokaManager::default()` constructs a brand-new Moka
    cache, so the embedding threads an allocation counter and records the
    identifier of the freshly allocated store in the client;
  * the observable step sequence of `send` is recorded as a trace of
    `Effect`s so that "fails before any I/O" is a provable statement.

Durations (`std::time::Duration`, `Duration::from_nanos`) are modelled as
their nanosecond count, a `Nat`.
-/

namespace OpaHttp

/-- `enum Timeout` (src lines 27–33): an untagged union of a parsed duration
string (`TimeString(Duration)`) and a raw nanosecond count (`Nanosec(u64)`).
Both payloads are modelled in nanoseconds. -/
inductive Timeout where
  | TimeString (nanos : Nat)
  | Nanosec (nanos : Nat)
deriving Repr, DecidableEq

/-- `struct Request` (src lines 36–63), the configuration of one call.
`serde_json::Value` bodies are modelled opaquely as strings; `Method` as a
string; header maps as association lists. Field names follow the source,
including the `max_retry_atempts` spelling. -/
structure Request where
  url : String
  method : String
  body : Option String
  raw_body : Option String
  headers : Option (List (String × String))
  enable_redirect : Option Bool
  force_json_decode : Option Bool
  force_yaml_decode : Option Bool
  tls_use_system_cert : Option Bool
  tls_ca_cert : Option String
  tls_ca_cert_file : Option String
  tls_ca_cert_env_variable : Option String
  tls_client_key : Option String
  tls_client_key_file : Option String
  tls_client_key_env_variable : Option String
  timeout : Option Timeout
  tls_insecure_skip_verify : Option Bool
  tls_server_name : Option String
  cache : Option Bool
  force_cache : Option Bool
  force_cache_duration_seconds : Option Bool
  caching_mode : Option String
  raise_error : Option Bool
  max_retry_atempts : Option Nat
deriving Repr, DecidableEq

/-- `enum BodyType` (src lines 66–72): a decoded response body, either
JSON-flavoured or YAML-flavoured. Parsed values are opaque strings. -/
inductive BodyType where
  | Json (v : String)
  | Yaml (v : String)
deriving Repr, DecidableEq

/-- `struct Response` (src lines 75–84). `HeaderMap` is an association list,
the `error : HashMap<String, u16>` side channel an association list. -/
structure Response where
  status : String
  status_code : Nat
  body : Option BodyType
  raw_body : String
  headers : List (String × String)
  error : List (String × Nat)
deriving Repr, DecidableEq

/-- The wire-level response delivered by the network: status code,
`canonical_reason()`, headers, and the body text read by `resp.text()`. -/
structure WireResponse where
  status : Nat
  reason : Option String
  headers : List (String × String)
  body : String
deriving Repr, DecidableEq

/-- `fn unimplemented_option` (src lines 86–124): a chain of
`if let Some(_) = field { bail!("option unimplemented!") }` checks, in the
source's order. Every branch produces the same error string. -/
def unimplemented_option (data : Request) : Except String Unit :=
  if data.raise_error.isSome then .error "option unimplemented!"
  else if data.tls_ca_cert.isSome then .error "option unimplemented!"
  else if data.tls_client_key.isSome then .error "option unimplemented!"
  else if data.tls_server_name.isSome then .error "option unimplemented!"
  else if data.tls_use_system_cert.isSome then .error "option unimplemented!"
  else if data.tls_ca_cert_file.isSome then .error "option unimplemented!"
  else if data.tls_client_key_file.isSome then .error "option unimplemented!"
  else if data.tls_ca_cert_env_variable.isSome then .error "option unimplemented!"
  else if data.tls_client_key_env_variable.isSome then .error "option unimplemented!"
  else if data.tls_insecure_skip_verify.isSome then .error "option unimplemented!"
  else if data.caching_mode.isSome then .error "option unimplemented!"
  else if data.force_cache_duration_seconds.isSome then .error "option unimplemented!"
  else .ok ()

/-- The twelve declared-but-unsupported fields, as one predicate: true iff
any of the fields checked by `unimplemented_option` is present. -/
def hasUnsupportedOption (data : Request) : Bool :=
  data.raise_error.isSome || data.tls_ca_cert.isSome || data.tls_client_key.isSome ||
  data.tls_server_name.isSome || data.tls_use_system_cert.isSome ||
  data.tls_ca_cert_file.isSome || data.tls_client_key_file.isSome ||
  data.tls_ca_cert_env_variable.isSome || data.tls_client_key_env_variable.isSome ||
  data.tls_insecure_skip_verify.isSome || data.caching_mode.isSome ||
  data.force_cache_duration_seconds.isSome

/-- ASCII lowercasing of a string, character by character (structural
counterpart of `str::to_lowercase` on header names). -/
def lowercase (s : String) : String :=
  String.mk (s.data.map Char.toLower)

/-- `reqwest::HeaderMap::get`: header-name lookup is case-insensitive
(names are normalised to lowercase). First matching entry wins. Header
values are modelled as strings, so `HeaderValue::to_str` always succeeds. -/
def headersGet (headers : List (String × String)) (name : String) : Option String :=
  (headers.find? fun p => lowercase p.1 = lowercase name).map Prod.snd

/-- `fn decode_body` (src lines 126–143): first-match-wins decode of a raw
body given the response headers and the request's force flags. `jp` and `yp`
stand for `serde_json::from_str` and `serde_yaml::from_str`; their `?`
propagation is the `Except.map`. -/
def decode_body (jp yp : String → Except String String) (data : Request)
    (headers : List (String × String)) (raw_body : String) :
    Except String (Option BodyType) :=
  if raw_body = "" then .ok none
  else
    match headersGet headers "Content-Type" with
    | some header =>
      if header = "application/json" then
        (jp raw_body).map fun v => some (BodyType.Json v)
      else if header = "application/yaml" || header = "application/x-yaml" then
        (yp raw_body).map fun v => some (BodyType.Yaml v)
      else .ok none
    | none =>
      if data.force_json_decode = some true then
        (jp raw_body).map fun v => some (BodyType.Json v)
      else if data.force_yaml_decode = some true then
        (yp raw_body).map fun v => some (BodyType.Yaml v)
      else .ok none

/-- `reqwest::redirect::Policy`: either `Policy::none()` (follow no
redirects) or the builder default (bounded following). -/
inductive RedirectPolicy where
  | none
  | default
deriving Repr, DecidableEq

/-- `http_cache_reqwest::CacheMode` as used by the source. -/
inductive CacheMode where
  | Default
  | ForceCache
deriving Repr, DecidableEq

/-- The caching middleware layer: its mode and the identity of the
underlying store. `manager` is the allocation identifier of the
`MokaManager::default()` store created for this client. -/
structure HttpCache where
  mode : CacheMode
  manager : Nat
deriving Repr, DecidableEq

/-- `reqwest_middleware::ClientWithMiddleware` as assembled by
`build_client`: the redirect policy of the base client, the retry layer's
maximum retry count when installed, and the caching layer when installed. -/
structure ClientWithMiddleware where
  redirect : RedirectPolicy
  retry : Option Nat
  cache : Option HttpCache
deriving Repr, DecidableEq

/-- `fn build_client` (src lines 145–171). `MokaManager::default()` creates
a brand-new Moka cache, so when the caching layer is installed the client
records a freshly allocated store identifier (`nextStore`) and the
allocation counter advances; the source's fallible
`client_builder.build()?` cannot fail for these settings, so the model is
total. -/
def build_client (data : Request) (nextStore : Nat) : ClientWithMiddleware × Nat :=
  let redirect :=
    if data.enable_redirect = some false then RedirectPolicy.none
    else RedirectPolicy.default
  let retry := data.max_retry_atempts
  match data.cache with
  | some true =>
    let mode := if data.force_cache = some true then CacheMode.ForceCache else CacheMode.Default
    ({ redirect := redirect, retry := retry,
       cache := some { mode := mode, manager := nextStore } }, nextStore + 1)
  | _ => ({ redirect := redirect, retry := retry, cache := none }, nextStore)

/-- `reqwest_middleware::RequestBuilder`: the assembled, not-yet-sent
request. `timeout` is in nanoseconds; `body` is the payload that would be
transmitted. -/
structure RequestBuilder where
  client : ClientWithMiddleware
  method : String
  url : String
  timeout : Option Nat
  headers : List (String × String)
  body : Option String
deriving Repr, DecidableEq

/-- Validity of a header name for `HeaderMap::try_from` (approximating the
HTTP token character set): nonempty, alphanumeric or dash or underscore. -/
def isValidHeaderName (s : String) : Bool :=
  !s.isEmpty && s.toList.all fun c => c.isAlphanum || c = '-' || c = '_'

/-- `(&HashMap).try_into()? : HeaderMap` in `build_request`: succeeds with
the entries verbatim when every name is valid, fails otherwise. -/
def headersTryInto (hs : List (String × String)) :
    Except String (List (String × String)) :=
  if hs.all fun p => isValidHeaderName p.1 then .ok hs
  else .error "invalid header name"

/-- `RequestBuilder::json` also sets a `content-type: application/json`
header when none was supplied by the caller. -/
def addJsonContentType (hs : List (String × String)) : List (String × String) :=
  if hs.any fun p => lowercase p.1 = "content-type" then hs
  else hs ++ [("content-type", "application/json")]

/-- `fn build_request` (src lines 173–193), applying in the source's order:
timeout (`Duration::from_nanos` for the `Nanosec` arm), headers via
`try_into()?`, the structured body via `.json(..)`, then the raw body via
`.body(..)` which replaces any previously set payload. -/
def build_request (data : Request) (client : ClientWithMiddleware) :
    Except String RequestBuilder :=
  let rb : RequestBuilder :=
    { client := client, method := data.method, url := data.url,
      timeout := none, headers := [], body := none }
  let rb :=
    match data.timeout with
    | some (Timeout.TimeString n) => { rb with timeout := some n }
    | some (Timeout.Nanosec n) => { rb with timeout := some n }
    | none => rb
  match (match data.headers with
         | some hs => (headersTryInto hs).map fun h => { rb with headers := rb.headers ++ h }
         | none => .ok rb) with
  | .error e => .error e
  | .ok rb =>
    let rb :=
      match data.body with
      | some v => { rb with body := some v, headers := addJsonContentType rb.headers }
      | none => rb
    let rb :=
      match data.raw_body with
      | some raw => { rb with body := some raw }
      | none => rb
    .ok rb

/-- The observable steps of one `send` call, in order: client construction,
request assembly, the network dispatch, and the body read (`resp.text()`). -/
inductive Effect where
  | clientBuilt
  | requestBuilt
  | dispatched
  | bodyRead
deriving Repr, DecidableEq

/-- `resp.status().as_str()` plus the appended `canonical_reason()` when
known (src lines 205–208). -/
def statusLine (wire : WireResponse) : String :=
  match wire.reason with
  | some reason => toString wire.status ++ " " ++ reason
  | none => toString wire.status

/-- `async fn send` (src lines 197–226), with the network outcome `net`, the
parsers `jp`/`yp` and the store-allocation counter `nextStore` explicit, and
the trace of performed effects returned alongside the result. -/
def send (jp yp : String → Except String String) (data : Request)
    (net : Except String WireResponse) (nextStore : Nat) :
    Except String Response × List Effect :=
  match unimplemented_option data with
  | .error e => (.error e, [])
  | .ok _ =>
    let client := (build_client data nextStore).1
    match build_request data client with
    | .error e => (.error e, [.clientBuilt])
    | .ok _request =>
      match net with
      | .error e => (.error e, [.clientBuilt, .requestBuilt, .dispatched])
      | .ok wire =>
        let status := statusLine wire
        let status_code := if data.raise_error = some false then 0 else wire.status
        let error : List (String × Nat) := []
        let headers := wire.headers
        let raw_body := wire.body
        match decode_body jp yp data headers raw_body with
        | .error e => (.error e, [.clientBuilt, .requestBuilt, .dispatched, .bodyRead])
        | .ok body =>
          (.ok { status := status, status_code := status_code, body := body,
                 raw_body := raw_body, headers := headers, error := error },
           [.clientBuilt, .requestBuilt, .dispatched, .bodyRead])

/-- A request with both mandatory fields set and every optional field
absent, used to build concrete inputs. -/
def baseRequest : Request :=
  { url := "http://example.com", method := "GET", body := none, raw_body := none,
    headers := none, enable_redirect := none, force_json_decode := none,
    force_yaml_decode := none, tls_use_system_cert := none, tls_ca_cert := none,
    tls_ca_cert_file := none, tls_ca_cert_env_variable := none,
    tls_client_key := none, tls_client_key_file := none,
    tls_client_key_env_variable := none, timeout := none,
    tls_insecure_skip_verify := none, tls_server_name := none, cache := none,
    force_cache := none, force_cache_duration_seconds := none,
    caching_mode := none, raise_error := none, max_retry_atempts := none }

/-- Characterisation of the validator: it fails, always with the single
message `"option unimplemented!"`, exactly when some unsupported field is
present. -/
theorem unimplemented_option_eq (data : Request) :
    unimplemented_option data =
      if hasUnsupportedOption data then Except.error "option unimplemented!"
      else Except.ok () := by
  unfold unimplemented_option hasUnsupportedOption
  rcases h1 : data.raise_error.isSome <;> try simp [h1]
  rcases h2 : data.tls_ca_cert.isSome <;> try simp [h2]
  rcases h3 : data.tls_client_key.isSome <;> try simp [h3]
  rcases h4 : data.tls_server_name.isSome <;> try simp [h4]
  rcases h5 : data.tls_use_system_cert.isSome <;> try simp [h5]
  rcases h6 : data.tls_ca_cert_file.isSome <;> try simp [h6]
  rcases h7 : data.tls_client_key_file.isSome <;> try simp [h7]
  rcases h8 : data.tls_ca_cert_env_variable.isSome <;> try simp [h8]
  rcases h9 : data.tls_client_key_env_variable.isSome <;> try simp [h9]
  rcases h10 : data.tls_insecure_skip_verify.isSome <;> try simp [h10]
  rcases h11 : data.caching_mode.isSome <;> try simp [h11]

/-- C1: any declared-but-unsupported option present makes `send` fail with
the unsupported-option error and an empty effect trace: no client
construction, no request assembly, no dispatch, no body read. -/
theorem send_unsupported_fails_before_io
    (jp yp : String → Except String String) (data : Request)
    (net : Except String WireResponse) (ns : Nat)
    (h : hasUnsupportedOption data = true) :
    send jp yp data net ns = (Except.error "option unimplemented!", []) := by
  simp [send, unimplemented_option_eq, h]

/-- Concrete witness for C1: a request with `raise_error` set is rejected
with no effects, for a network oracle that would have answered. -/
theorem send_unsupported_fails_before_io_witness :
    hasUnsupportedOption { baseRequest with raise_error := some true } = true ∧
    send (fun s => Except.ok s) (fun s => Except.ok s)
        { baseRequest with raise_error := some true }
        (Except.ok { status := 200, reason := some "OK", headers := [], body := "" }) 0 =
      (Except.error "option unimplemented!", []) :=
  ⟨rfl, send_unsupported_fails_before_io _ _ _ _ 0 rfl⟩

/-- The request triggering the validator through `caching_mode` alone. -/
def reqCachingMode : Request := { baseRequest with caching_mode := some "force" }

/-- The request triggering the validator through `tls_server_name` alone. -/
def reqTlsServerName : Request := { baseRequest with tls_server_name := some "example.org" }

/-- Counterexample to C10: two requests rejected for different fields
(`caching_mode` vs `tls_server_name`) receive the very same error value,
so the error does not identify which field triggered the rejection. -/
theorem unimplemented_option_error_not_identifying :
    reqCachingMode.caching_mode.isSome = true ∧
    reqCachingMode.tls_server_name = none ∧
    reqTlsServerName.tls_server_name.isSome = true ∧
    reqTlsServerName.caching_mode = none ∧
    unimplemented_option reqCachingMode = Except.error "option unimplemented!" ∧
    unimplemented_option reqTlsServerName = Except.error "option unimplemented!" :=
  ⟨rfl, rfl, rfl, rfl, rfl, rfl⟩

/-- C10 amended: the validator fails fast, at the first failing check of
the fixed list, with an unsupported-option error — but that error is the
same generic `"option unimplemented!"` for every field and does not
identify the triggering field. -/
theorem unimplemented_option_uniform_error (data : Request) :
    (hasUnsupportedOption data = true →
      unimplemented_option data = Except.error "option unimplemented!") ∧
    (hasUnsupportedOption data = false → unimplemented_option data = Except.ok ()) := by
  constructor <;> intro h <;> simp [unimplemented_option_eq, h]

/-- Concrete witness for the amended C10. -/
theorem unimplemented_option_uniform_error_witness :
    hasUnsupportedOption reqCachingMode = true ∧
    unimplemented_option reqCachingMode = Except.error "option unimplemented!" :=
  ⟨rfl, (unimplemented_option_uniform_error reqCachingMode).1 rfl⟩

/-- C9: the assembled client follows no redirects exactly when
`enable_redirect` is explicitly `some false`; for an absent or `some true`
flag it keeps the library's default redirect policy. -/
theorem build_client_redirect_policy (data : Request) (ns : Nat) :
    ((build_client data ns).1.redirect = RedirectPolicy.none ↔
      data.enable_redirect = some false) ∧
    (data.enable_redirect ≠ some false →
      (build_client data ns).1.redirect = RedirectPolicy.default) := by
  by_cases h : data.enable_redirect = some false <;>
    rcases hc : data.cache with _ | (_ | _) <;> simp [build_client, hc, h]

/-- Concrete witness for C9: redirects disabled for `some false`, default
policy kept for an absent flag. -/
theorem build_client_redirect_policy_witness :
    (build_client { baseRequest with enable_redirect := some false } 0).1.redirect =
      RedirectPolicy.none ∧
    (build_client baseRequest 0).1.redirect = RedirectPolicy.default :=
  ⟨(build_client_redirect_policy { baseRequest with enable_redirect := some false } 0).1.mpr rfl,
   (build_client_redirect_policy baseRequest 0).2 (by decide)⟩

/-- A caching-enabled request used for the cache-store claims. -/
def cacheReq : Request := { baseRequest with cache := some true }

/-- Counterexample to C6: two calls that opt into caching do not share an
underlying cache store. `build_client` constructs `MokaManager::default()`
per call, so the first call gets store 0 and the second a distinct store 1. -/
theorem build_client_fresh_store_counterexample :
    (build_client cacheReq 0).1.cache = some { mode := CacheMode.Default, manager := 0 } ∧
    (build_client cacheReq ((build_client cacheReq 0).2)).1.cache =
      some { mode := CacheMode.Default, manager := 1 } ∧
    (build_client cacheReq 0).1.cache ≠
      (build_client cacheReq ((build_client cacheReq 0).2)).1.cache :=
  ⟨rfl, rfl, by decide⟩

/-- C6 amended: every call that enables caching gets the caching layer, but
with a cache store constructed fresh inside `build_client` for that call:
two successive calls hold distinct stores, so the store is per-call state,
not process-wide shared state. -/
theorem build_client_store_per_call (data : Request) (ns : Nat)
    (h : data.cache = some true) :
    ∃ hc1 hc2 : HttpCache,
      (build_client data ns).1.cache = some hc1 ∧
      (build_client data ((build_client data ns).2)).1.cache = some hc2 ∧
      hc1.manager ≠ hc2.manager := by
  refine ⟨⟨if data.force_cache = some true then .ForceCache else .Default, ns⟩,
          ⟨if data.force_cache = some true then .ForceCache else .Default, ns + 1⟩,
          ?_, ?_, ?_⟩
  · simp [build_client, h]
  · simp [build_client, h]
  · simp

/-- Concrete witness for the amended C6. -/
theorem build_client_store_per_call_witness :
    cacheReq.cache = some true ∧
    ∃ hc1 hc2 : HttpCache,
      (build_client cacheReq 0).1.cache = some hc1 ∧
      (build_client cacheReq ((build_client cacheReq 0).2)).1.cache = some hc2 ∧
      hc1.manager ≠ hc2.manager :=
  ⟨rfl, build_client_store_per_call cacheReq 0 rfl⟩

/-- C7: when both the structured `body` and `raw_body` are present, the
assembled request's payload is `raw_body`: `build_request` applies `.json`
first and `.body` last, and `.body` replaces the payload. -/
theorem build_request_raw_body_precedence (data : Request)
    (client : ClientWithMiddleware) (v raw : String) (rb : RequestBuilder)
    (hb : data.body = some v) (hr : data.raw_body = some raw)
    (h : build_request data client = .ok rb) :
    rb.body = some raw := by
  rcases ht : data.timeout with _ | t <;> try rcases t with n | n
  all_goals rcases hh : data.headers with _ | hs
  all_goals try simp_all [build_request]
  all_goals try (subst h; rfl)
  all_goals rcases hhc : headersTryInto hs with e | hl
  all_goals try simp_all [build_request, Except.map]
  all_goals try (subst h; rfl)

/-- A plain middleware-free client for concrete witnesses. -/
def clientPlain : ClientWithMiddleware :=
  { redirect := RedirectPolicy.default, retry := none, cache := none }

/-- The request assembled from `baseRequest` with both body forms set. -/
def rbBoth : RequestBuilder :=
  { client := clientPlain, method := "GET", url := "http://example.com",
    timeout := none, headers := [("content-type", "application/json")],
    body := some "two" }

/-- Concrete witness for C7. -/
theorem build_request_raw_body_precedence_witness :
    build_request { baseRequest with body := some "1", raw_body := some "two" }
        clientPlain = Except.ok rbBoth ∧
    rbBoth.body = some "two" :=
  ⟨rfl, build_request_raw_body_precedence
    { baseRequest with body := some "1", raw_body := some "two" }
    clientPlain "1" "two" rbBoth rfl rfl rfl⟩

/-- C8: a timeout given as a parsed duration string and the same duration
given as its nanosecond count assemble to identical requests: both forms
resolve to the same internal duration. -/
theorem build_request_timeout_forms_agree (data : Request)
    (client : ClientWithMiddleware) (d : Nat) :
    build_request { data with timeout := some (Timeout.TimeString d) } client =
      build_request { data with timeout := some (Timeout.Nanosec d) } client := rfl

/-- C4: the decoder's first-match-wins decision order. An empty body decodes
to nothing; a recognized `Content-Type` selects JSON or YAML and any other
value selects nothing (force flags ignored); with no `Content-Type` the
force flags are consulted, JSON first; otherwise nothing is decoded. -/
theorem decode_body_decision_order (jp yp : String → Except String String)
    (data : Request) (hdrs : List (String × String)) (raw : String) :
    (raw = "" → decode_body jp yp data hdrs raw = Except.ok none) ∧
    (raw ≠ "" → headersGet hdrs "Content-Type" = some "application/json" →
      decode_body jp yp data hdrs raw = (jp raw).map fun v => some (BodyType.Json v)) ∧
    (raw ≠ "" → ∀ ct, headersGet hdrs "Content-Type" = some ct →
      (ct = "application/yaml" ∨ ct = "application/x-yaml") →
      decode_body jp yp data hdrs raw = (yp raw).map fun v => some (BodyType.Yaml v)) ∧
    (raw ≠ "" → ∀ ct, headersGet hdrs "Content-Type" = some ct →
      ct ≠ "application/json" → ct ≠ "application/yaml" → ct ≠ "application/x-yaml" →
      decode_body jp yp data hdrs raw = Except.ok none) ∧
    (raw ≠ "" → headersGet hdrs "Content-Type" = none →
      data.force_json_decode = some true →
      decode_body jp yp data hdrs raw = (jp raw).map fun v => some (BodyType.Json v)) ∧
    (raw ≠ "" → headersGet hdrs "Content-Type" = none →
      data.force_json_decode ≠ some true → data.force_yaml_decode = some true →
      decode_body jp yp data hdrs raw = (yp raw).map fun v => some (BodyType.Yaml v)) ∧
    (raw ≠ "" → headersGet hdrs "Content-Type" = none →
      data.force_json_decode ≠ some true → data.force_yaml_decode ≠ some true →
      decode_body jp yp data hdrs raw = Except.ok none) := by
  refine ⟨fun h => ?_, fun h hct => ?_, fun h ct hct hy => ?_,
          fun h ct hct h1 h2 h3 => ?_, fun h hn hf => ?_,
          fun h hn hf1 hf2 => ?_, fun h hn hf1 hf2 => ?_⟩
  · simp [decode_body, h]
  · simp [decode_body, h, hct]
  · rcases hy with rfl | rfl <;> simp [decode_body, h, hct]
  · simp [decode_body, h, hct, h1, h2, h3]
  · simp [decode_body, h, hn, hf]
  · simp [decode_body, h, hn, hf1, hf2]
  · simp [decode_body, h, hn, hf1, hf2]

/-- Concrete witness for C4: a JSON `Content-Type` routes the body through
the JSON parser. -/
theorem decode_body_decision_order_witness :
    decode_body (fun s => Except.ok s) (fun s => Except.ok s) baseRequest
      [("Content-Type", "application/json")] "null" =
      Except.ok (some (BodyType.Json "null")) := by
  have h := (decode_body_decision_order (fun s => Except.ok s) (fun s => Except.ok s)
    baseRequest [("Content-Type", "application/json")] "null").2.1 (by decide) (by decide)
  simpa using h

/-- C5: whenever a decode is attempted (`Content-Type` match or a force
flag) and the chosen parser rejects the body, `decode_body` returns that
error, and `send` propagates it as a failure of the whole call with no
`Response` produced — never a downgrade to `body = none`. -/
theorem decode_failure_propagates (jp yp : String → Except String String)
    (data : Request) (hdrs : List (String × String)) (raw e : String)
    (wire : WireResponse) (ns : Nat) :
    (raw ≠ "" → headersGet hdrs "Content-Type" = some "application/json" →
      jp raw = Except.error e → decode_body jp yp data hdrs raw = Except.error e) ∧
    (raw ≠ "" → ∀ ct, headersGet hdrs "Content-Type" = some ct →
      (ct = "application/yaml" ∨ ct = "application/x-yaml") →
      yp raw = Except.error e → decode_body jp yp data hdrs raw = Except.error e) ∧
    (raw ≠ "" → headersGet hdrs "Content-Type" = none →
      data.force_json_decode = some true → jp raw = Except.error e →
      decode_body jp yp data hdrs raw = Except.error e) ∧
    (raw ≠ "" → headersGet hdrs "Content-Type" = none →
      data.force_json_decode ≠ some true → data.force_yaml_decode = some true →
      yp raw = Except.error e → decode_body jp yp data hdrs raw = Except.error e) ∧
    (unimplemented_option data = Except.ok () →
      (∃ rb, build_request data (build_client data ns).1 = Except.ok rb) →
      decode_body jp yp data wire.headers wire.body = Except.error e →
      send jp yp data (Except.ok wire) ns =
        (Except.error e,
         [Effect.clientBuilt, Effect.requestBuilt, Effect.dispatched, Effect.bodyRead])) := by
  refine ⟨fun h hct hjp => ?_, fun h ct hct hy hyp => ?_, fun h hn hf hjp => ?_,
          fun h hn hf1 hf2 hyp => ?_, fun hu hrb hd => ?_⟩
  · simp [decode_body, h, hct, hjp, Except.map]
  · rcases hy with rfl | rfl <;> simp [decode_body, h, hct, hyp, Except.map]
  · simp [decode_body, h, hn, hf, hjp, Except.map]
  · simp [decode_body, h, hn, hf1, hf2, hyp, Except.map]
  · obtain ⟨rb, hrb⟩ := hrb
    simp [send, hu, hrb, hd]

/-- Concrete witness for C5: a forced JSON decode of a malformed body makes
the whole `send` call fail with the parse error. -/
theorem decode_failure_propagates_witness :
    send (fun _ => Except.error "bad json") (fun s => Except.ok s)
        { baseRequest with force_json_decode := some true }
        (Except.ok { status := 200, reason := none, headers := [], body := "oops" }) 0 =
      (Except.error "bad json",
       [Effect.clientBuilt, Effect.requestBuilt, Effect.dispatched, Effect.bodyRead]) :=
  (decode_failure_propagates (fun _ => Except.error "bad json") (fun s => Except.ok s)
    { baseRequest with force_json_decode := some true } [] "oops" "bad json"
    { status := 200, reason := none, headers := [], body := "oops" } 0).2.2.2.2
    rfl
    ⟨{ client := clientPlain, method := "GET", url := "http://example.com",
       timeout := none, headers := [], body := none }, rfl⟩
    rfl

/-- Inversion of a successful `send`: validation passed, the network was
consulted and answered, request assembly succeeded, the decode succeeded,
and the response is assembled exactly from the wire response. -/
theorem send_ok_inversion (jp yp : String → Except String String) (data : Request)
    (net : Except String WireResponse) (ns : Nat) (resp : Response)
    (h : (send jp yp data net ns).1 = Except.ok resp) :
    unimplemented_option data = Except.ok () ∧
    ∃ wire, net = Except.ok wire ∧
      (∃ rb, build_request data (build_client data ns).1 = Except.ok rb) ∧
      ∃ body, decode_body jp yp data wire.headers wire.body = Except.ok body ∧
        resp = { status := statusLine wire,
                 status_code := if data.raise_error = some false then 0 else wire.status,
                 body := body, raw_body := wire.body, headers := wire.headers,
                 error := [] } := by
  rcases hu : unimplemented_option data with e | u
  · simp [send, hu] at h
  · rcases hb : build_request data (build_client data ns).1 with e | rb
    · simp [send, hu, hb] at h
    · rcases hn : net with e2 | wire
      · simp [send, hu, hb, hn] at h
      · rcases hd : decode_body jp yp data wire.headers wire.body with e3 | body
        · simp [send, hu, hb, hn, hd] at h
        · simp [send, hu, hb, hn, hd] at h
          exact ⟨rfl, wire, rfl, ⟨rb, rfl⟩, body, hd, h.symm⟩

/-- C2: for every successfully returned response, the reported status code
is `0` when `raise_error` is explicitly `some false`, and the actual wire
status otherwise. (The first case is vacuous in the full pipeline: such
requests are rejected by the validator before dispatch.) -/
theorem send_status_code_reporting (jp yp : String → Except String String)
    (data : Request) (wire : WireResponse) (ns : Nat) (resp : Response)
    (h : (send jp yp data (Except.ok wire) ns).1 = Except.ok resp) :
    (data.raise_error = some false → resp.status_code = 0) ∧
    (data.raise_error ≠ some false → resp.status_code = wire.status) := by
  obtain ⟨-, wire2, hnet, -, body, -, hresp⟩ := send_ok_inversion jp yp data _ ns resp h
  injection hnet with hnet
  subst hnet
  subst hresp
  constructor <;> intro hre <;> simp [hre]

/-- For the C2 and C3 witnesses: a plain 200 wire response with empty body. -/
def wire0 : WireResponse :=
  { status := 200, reason := some "OK", headers := [], body := "" }

/-- The response `send` assembles from `wire0` for `baseRequest`. -/
def resp0 : Response :=
  { status := "200 OK", status_code := 200, body := none, raw_body := "",
    headers := [], error := [] }

/-- Concrete witness for C2: `baseRequest` leaves `raise_error` unset, so
the reported status code is the wire status. -/
theorem send_status_code_reporting_witness :
    (send (fun s => Except.ok s) (fun s => Except.ok s) baseRequest
      (Except.ok wire0) 0).1 = Except.ok resp0 ∧
    resp0.status_code = wire0.status :=
  ⟨rfl, (send_status_code_reporting (fun s => Except.ok s) (fun s => Except.ok s)
    baseRequest wire0 0 resp0 rfl).2 (by decide)⟩

/-- C3: a request can only reach a `Response` if `raise_error` is `none`
(the validator rejects any request with `raise_error` set), so the zeroing
branch is dead and every returned response carries the wire status. -/
theorem send_ok_raise_error_none (jp yp : String → Except String String)
    (data : Request) (net : Except String WireResponse) (ns : Nat) (resp : Response)
    (h : (send jp yp data net ns).1 = Except.ok resp) :
    data.raise_error = none ∧
    ∃ wire, net = Except.ok wire ∧ resp.status_code = wire.status := by
  obtain ⟨hu, wire, hnet, -, body, -, hresp⟩ := send_ok_inversion jp yp data net ns resp h
  rw [unimplemented_option_eq] at hu
  have hunsupported : hasUnsupportedOption data = false := by
    by_cases hx : hasUnsupportedOption data = true
    · simp [hx] at hu
    · simpa using hx
  have hre : data.raise_error = none := by
    rcases hv : data.raise_error with _ | b
    · rfl
    · rw [hasUnsupportedOption, hv] at hunsupported
      simp at hunsupported
  refine ⟨hre, wire, hnet, ?_⟩
  subst hresp
  simp [hre]

/-- Concrete witness for C3. -/
theorem send_ok_raise_error_none_witness :
    baseRequest.raise_error = none ∧
    ∃ wire, (Except.ok wire0 : Except String WireResponse) = Except.ok wire ∧
      resp0.status_code = wire.status :=
  send_ok_raise_error_none (fun s => Except.ok s) (fun s => Except.ok s)
    baseRequest (Except.ok wire0) 0 resp0 rfl

end OpaHttp
